import Mathlib

/-!
Shallow embedding of the session-state management layer of `f5/lb.py`
(python-f5): the decorators `restore_session_values`, `recursivereader`,
`writer` and `transaction`, the `active_folder` / `recursive_query` /
`transaction` properties, the internal session methods
(`_ensure_transaction`, `_ensure_no_transaction`, `_active_transaction`,
`_submit_transaction`), the constructor version check, and the
pool-member cache keying.

The remote BIG-IP endpoint (reached through the bigsuds transport) is an
external collaborator; it is modelled as a deterministic state machine
with the semantics the spec assigns to it (one transaction open at a
time, the two documented fault messages, folder and recursive-query
state held server-side), plus call counters so that which remote calls
were issued is observable.  Python exceptions are modelled by an error
type and `Except` / an `Outcome` sum; the Python substring test
(the `in` operator on strings) is modelled by an executable contiguous
subsequence check on character lists.
-/

/-- Test whether the character list `needle` is an initial segment of `hay`
(helper for the Python `in` substring operator). -/
def chLeads : List Char → List Char → Bool
  | [], _ => true
  | _ :: _, [] => false
  | a :: as, b :: bs => a == b && chLeads as bs

/-- Test whether the character list `needle` occurs contiguously inside `hay`
(helper for the Python `in` substring operator). -/
def chWithin (needle : List Char) : List Char → Bool
  | [] => chLeads needle []
  | b :: bs => chLeads needle (b :: bs) || chWithin needle bs

/-- The Python substring containment test (the `in` operator) on strings. -/
def strIn (needle hay : String) : Bool :=
  chWithin needle.toList hay.toList

/-- Python exceptions that the session layer raises, catches or propagates.
`serverError` is `bigsuds.ServerError` carrying its fault message;
`otherError` is any exception of another class (caught only by bare
`except:` clauses); `valueError` is the `ValueError` raised by the
`recursive_query` setter; `runtimeError` is the raise at lb.py line 146 for
an unrecognized recursive-query state (the `ProtocolError` of the spec; in the
source the misplaced `%` makes the concrete class a `TypeError`, but it is
an unconditional raise either way); `unsupportedF5Version` is
`f5.exceptions.UnsupportedF5Version`. -/
inductive PyErr where
  | serverError : String → PyErr
  | otherError : PyErr
  | valueError : PyErr
  | runtimeError : PyErr
  | unsupportedF5Version : PyErr
  deriving Repr, DecidableEq

/-- The state of the remote endpoint, plus counters of the remote calls issued
(so theorems can observe which calls a code path makes). -/
structure Remote where
  folder : String
  rqState : String
  txOpen : Bool
  txTimeout : Nat
  versionString : String
  starts : Nat
  rollbacks : Nat
  submits : Nat
  versionGets : Nat
  deriving Repr, DecidableEq

/-- Fault message of `start_transaction` when a transaction is already open
(the substring lb.py line 198 / 238 checks for). -/
def onlyOneMsg : String := "Only one transaction can be open at any time"

/-- Fault message of `rollback_transaction` when no transaction is open
(the substring lb.py line 208 checks for). -/
def noRollbackMsg : String := "No transaction is open to roll back."

/-- Fault message of `submit_transaction` when no transaction is open. -/
def noSubmitMsg : String := "No transaction is open to submit."

/-- Modelled from the spec: remote `start_transaction`.  Only one
transaction may be open at a time; opening while open faults with the
already-open message. -/
def Remote.start_transaction (r : Remote) : Except PyErr Unit × Remote :=
  let r1 := { r with starts := r.starts + 1 }
  if r1.txOpen then (Except.error (PyErr.serverError onlyOneMsg), r1)
  else (Except.ok (), { r1 with txOpen := true })

/-- Modelled from the spec: remote `rollback_transaction`.  Rolling back with
no open transaction faults with the nothing-to-roll-back message. -/
def Remote.rollback_transaction (r : Remote) : Except PyErr Unit × Remote :=
  let r1 := { r with rollbacks := r.rollbacks + 1 }
  if r1.txOpen then (Except.ok (), { r1 with txOpen := false })
  else (Except.error (PyErr.serverError noRollbackMsg), r1)

/-- Modelled from the spec: remote `submit_transaction`.  Submitting with no
open transaction faults. -/
def Remote.submit_transaction (r : Remote) : Except PyErr Unit × Remote :=
  let r1 := { r with submits := r.submits + 1 }
  if r1.txOpen then (Except.ok (), { r1 with txOpen := false })
  else (Except.error (PyErr.serverError noSubmitMsg), r1)

/-- Modelled from the spec: remote `set_active_folder`. -/
def Remote.set_active_folder (r : Remote) (v : String) : Except PyErr Unit × Remote :=
  (Except.ok (), { r with folder := v })

/-- Modelled from the spec: remote `get_active_folder`. -/
def Remote.get_active_folder (r : Remote) : String × Remote :=
  (r.folder, r)

/-- Modelled from the spec: remote `set_recursive_query_state`. -/
def Remote.set_recursive_query_state (r : Remote) (st : String) : Except PyErr Unit × Remote :=
  (Except.ok (), { r with rqState := st })

/-- Modelled from the spec: remote `get_recursive_query_state`. -/
def Remote.get_recursive_query_state (r : Remote) : String × Remote :=
  (r.rqState, r)

/-- Modelled from the spec: remote `get_transaction_timeout`. -/
def Remote.get_transaction_timeout (r : Remote) : Nat × Remote :=
  (r.txTimeout, r)

/-- Modelled from the spec: remote `System.SystemInfo.get_version`, counted so
that how often construction queries the version is observable. -/
def Remote.get_version (r : Remote) : String × Remote :=
  (r.versionString, { r with versionGets := r.versionGets + 1 })

/-- The state of the `Lb` session object: the remote endpoint it talks to plus the
cached session attributes `_active_folder`, `_recursive_query`,
`_transaction`, `_transaction_timeout` (lb.py lines 103-106). -/
structure LbSt where
  remote : Remote
  _active_folder : String
  _recursive_query : Bool
  _transaction : Bool
  _transaction_timeout : Nat
  deriving Repr, DecidableEq

/-- Result of running a (possibly raising) Python method body against an
`Lb` session: normal return with a value, or an exception propagating,
in each case with the session state at that point. -/
inductive Outcome (α : Type) where
  | ok : α → LbSt → Outcome α
  | raised : PyErr → LbSt → Outcome α
  deriving Repr, DecidableEq

/-- The session state an `Outcome` ends in. -/
def Outcome.st {α : Type} : Outcome α → LbSt
  | Outcome.ok _ s => s
  | Outcome.raised _ s => s

/-- The value an `Outcome` returned normally, if any. -/
def Outcome.okValue {α : Type} : Outcome α → Option α
  | Outcome.ok v _ => some v
  | Outcome.raised _ _ => none

/-!  Session-level fault-filtering methods, embedded verbatim from lb.py and
parametrized by the outcome of the underlying remote call, so that the
try/except fault handling can be stated for an arbitrary fault. -/

/-- Embedding of `_ensure_transaction` (lb.py lines 193-201) as a function of
the outcome of the remote `start_transaction` call: a `ServerError` whose
message contains the already-open substring is swallowed, every other
exception propagates. -/
def _ensure_transaction (startResult : Except PyErr Unit) : Except PyErr Unit :=
  match startResult with
  | Except.ok _ => Except.ok ()
  | Except.error (PyErr.serverError msg) =>
    if strIn onlyOneMsg msg then Except.ok ()
    else Except.error (PyErr.serverError msg)
  | Except.error e => Except.error e

/-- Embedding of `_ensure_no_transaction` (lb.py lines 203-213) as a function
of the outcome of the remote `rollback_transaction` call: a `ServerError`
whose message contains the nothing-to-roll-back substring is swallowed,
every other exception propagates (the trailing bare `except: raise` of the
source re-raises unchanged). -/
def _ensure_no_transaction (rollbackResult : Except PyErr Unit) : Except PyErr Unit :=
  match rollbackResult with
  | Except.ok _ => Except.ok ()
  | Except.error (PyErr.serverError msg) =>
    if strIn noRollbackMsg msg then Except.ok ()
    else Except.error (PyErr.serverError msg)
  | Except.error e => Except.error e

/-- Embedding of `_active_transaction` (lb.py lines 233-244) as a function of
the outcomes of the probing remote `start_transaction` call and of the
remote `rollback_transaction` call that follows a successful start: the
already-open fault means `True`; a successful start is rolled back and
means `False`; every other exception propagates. -/
def _active_transaction (startResult rollbackResult : Except PyErr Unit) : Except PyErr Bool :=
  match startResult with
  | Except.error (PyErr.serverError msg) =>
    if strIn onlyOneMsg msg then Except.ok true
    else Except.error (PyErr.serverError msg)
  | Except.error e => Except.error e
  | Except.ok _ =>
    match rollbackResult with
    | Except.ok _ => Except.ok false
    | Except.error e => Except.error e

/-!  Session-level properties over `LbSt`, composing the lb.py property code
with the deterministic remote endpoint. -/

/-- Embedding of the `active_folder` setter (lb.py lines 132-135): issue the
remote mutation, then update the `_active_folder` cache.  The remote set
cannot fault in the endpoint model. -/
def set_active_folder (s : LbSt) (v : String) : LbSt :=
  let (_, r) := s.remote.set_active_folder v
  { s with remote := r, _active_folder := v }

/-- Embedding of the `active_folder` getter (lb.py lines 127-130): query the
remote endpoint, overwrite the `_active_folder` cache, return the value. -/
def get_active_folder (s : LbSt) : String × LbSt :=
  let (v, r) := s.remote.get_active_folder
  (v, { s with remote := r, _active_folder := v })

/-- Embedding of the `recursive_query` setter applied to a boolean (the only
way the decorators call it): map the boolean to the remote enum string,
issue the remote mutation, update the `_recursive_query` cache
(lb.py lines 150-160, boolean case). -/
def setRecursiveQueryBool (s : LbSt) (b : Bool) : LbSt :=
  let st := if b then "STATE_ENABLED" else "STATE_DISABLED"
  let (_, r) := s.remote.set_recursive_query_state st
  { s with remote := r, _recursive_query := b }

/-- A Python value passed to the `recursive_query` setter, classified by what
the `==` tests of the setter can distinguish: equal to `True`, equal to `False`,
or equal to neither (carrying its repr). -/
inductive PyVal where
  | pyTrue : PyVal
  | pyFalse : PyVal
  | other : String → PyVal
  deriving Repr, DecidableEq

/-- Embedding of the `recursive_query` setter (lb.py lines 150-160): `True`
maps to `STATE_ENABLED`, `False` to `STATE_DISABLED`, anything else raises
`ValueError` before the remote call is made (the session state, remote
included, is returned untouched). -/
def set_recursive_query (s : LbSt) (v : PyVal) : Except PyErr Unit × LbSt :=
  match v with
  | PyVal.pyTrue => (Except.ok (), setRecursiveQueryBool s true)
  | PyVal.pyFalse => (Except.ok (), setRecursiveQueryBool s false)
  | PyVal.other _ => (Except.error PyErr.valueError, s)

/-- Embedding of the `recursive_query` getter (lb.py lines 138-148): query the
remote enum state; `STATE_ENABLED` means `true`, `STATE_DISABLED` means
`false`, anything else raises (the raise at line 146). -/
def get_recursive_query (s : LbSt) : Except PyErr Bool × LbSt :=
  let (st, r) := s.remote.get_recursive_query_state
  if st = "STATE_ENABLED" then
    (Except.ok true, { s with remote := r, _recursive_query := true })
  else if st = "STATE_DISABLED" then
    (Except.ok false, { s with remote := r, _recursive_query := false })
  else
    (Except.error PyErr.runtimeError, { s with remote := r })

/-- Embedding of the `transaction` getter (lb.py lines 163-166), i.e.
`_active_transaction` (lines 233-244) run against the endpoint: probe with
`start_transaction`; the already-open fault means `true` (any other fault
would propagate); a successful start is immediately rolled back and means
`false`; the `_transaction` cache is updated with the result. -/
def get_transaction (s : LbSt) : Except PyErr Bool × LbSt :=
  let (res1, r1) := s.remote.start_transaction
  match res1 with
  | Except.error (PyErr.serverError msg) =>
    if strIn onlyOneMsg msg then
      (Except.ok true, { s with remote := r1, _transaction := true })
    else (Except.error (PyErr.serverError msg), { s with remote := r1 })
  | Except.error e => (Except.error e, { s with remote := r1 })
  | Except.ok _ =>
    let (res2, r2) := r1.rollback_transaction
    match res2 with
    | Except.ok _ => (Except.ok false, { s with remote := r2, _transaction := false })
    | Except.error e => (Except.error e, { s with remote := r2 })

/-- Embedding of the `transaction` setter with value `True` (lb.py lines
168-172), i.e. `_ensure_transaction` (lines 193-201) run against the
endpoint, then the `_transaction` cache update. -/
def set_transaction_true (s : LbSt) : Except PyErr Unit × LbSt :=
  let (res, r) := s.remote.start_transaction
  match _ensure_transaction res with
  | Except.ok _ => (Except.ok (), { s with remote := r, _transaction := true })
  | Except.error e => (Except.error e, { s with remote := r })

/-- Embedding of the `transaction` setter with value `False` (lb.py lines
173-175), i.e. `_ensure_no_transaction` (lines 203-213) run against the
endpoint, then the `_transaction` cache update. -/
def set_transaction_false (s : LbSt) : Except PyErr Unit × LbSt :=
  let (res, r) := s.remote.rollback_transaction
  match _ensure_no_transaction res with
  | Except.ok _ => (Except.ok (), { s with remote := r, _transaction := false })
  | Except.error e => (Except.error e, { s with remote := r })

/-- Embedding of `_submit_transaction` (lb.py lines 215-217): issue the remote
submit; any fault propagates. -/
def submit_tx (s : LbSt) : Except PyErr Unit × LbSt :=
  let (res, r) := s.remote.submit_transaction
  (res, { s with remote := r })

/-- Embedding of the `transaction_timeout` getter (lb.py lines 178-181). -/
def get_transaction_timeout (s : LbSt) : Nat × LbSt :=
  let (v, r) := s.remote.get_transaction_timeout
  (v, { s with remote := r, _transaction_timeout := v })

/-!  The decorators. -/

/-- Success-path tail of `restore_session_values` (lb.py lines 22-26): compare
the live caches of `s1` to the snapshots and write the snapshot back
through the property setter for whichever of the two differs. -/
def restoreSt (s1 : LbSt) (original_folder : String) (original_recursive_query : Bool) : LbSt :=
  let s2 := if s1._active_folder ≠ original_folder
            then set_active_folder s1 original_folder else s1
  if s2._recursive_query ≠ original_recursive_query
  then setRecursiveQueryBool s2 original_recursive_query else s2

/-- Embedding of `restore_session_values` (lb.py lines 15-30): snapshot the
`_active_folder` and `_recursive_query` caches, run the body, and — only
when the body returned normally, since the source has no try/finally —
write back through the property setters whichever of the two differs from
its snapshot.  When the body raises, the exception propagates at line 20
before the comparisons are reached. -/
def restore_session_values {α : Type} (func : LbSt → Outcome α) (s : LbSt) : Outcome α :=
  let original_folder := s._active_folder
  let original_recursive_query := s._recursive_query
  match func s with
  | Outcome.raised e s1 => Outcome.raised e s1
  | Outcome.ok func_ret s1 =>
    Outcome.ok func_ret (restoreSt s1 original_folder original_recursive_query)

/-- Embedding of `recursivereader` (lb.py lines 34-46): inside
`restore_session_values`, force `active_folder` to `/` and
`recursive_query` to `True` when they differ, then run the body. -/
def recursivereader {α : Type} (func : LbSt → Outcome α) : LbSt → Outcome α :=
  restore_session_values (fun s =>
    let s1 := if s._active_folder ≠ "/" then set_active_folder s "/" else s
    let s2 := if s1._recursive_query ≠ true then setRecursiveQueryBool s1 true else s1
    func s2)

/-- Embedding of `writer` (lb.py lines 49-59): inside
`restore_session_values`, when the active folder is `/`, force it to
`/Common` and run (and return) the body; the `return func(...)` of the source
sits inside the `if`, so when the folder is already non-root the body is
never called and the wrapper returns Python `None` (modelled as `none`). -/
def writer {α : Type} (func : LbSt → Outcome α) : LbSt → Outcome (Option α) :=
  restore_session_values (fun s =>
    if s._active_folder = "/" then
      let s1 := set_active_folder s "/Common"
      match func s1 with
      | Outcome.ok v s2 => Outcome.ok (some v) s2
      | Outcome.raised e s2 => Outcome.raised e s2
    else Outcome.ok none s)

/-- Finishing step of the `transaction` decorator (lb.py lines 82-83),
reached on every path of the wrapper: when this invocation owns the
transaction, issue the remote submit (a fault from it propagates); the
wrapper body has no return statement, so the normal result is Python
`None` (modelled as `none`). -/
def transaction_finish {α : Type} (our_transaction : Bool) (s : LbSt) : Outcome (Option α) :=
  if our_transaction then
    match submit_tx s with
    | (Except.ok _, s1) => Outcome.ok none s1
    | (Except.error e, s1) => Outcome.raised e s1
  else Outcome.ok none s

/-- Embedding of the `transaction` decorator (lb.py lines 63-84): read the
`transaction` property to decide ownership; if owning, open a transaction;
run the body; if the body raises, the bare `except:` swallows the
exception and — when owning — attempts `self.transaction = False`, itself
under a bare `except: pass`; then, with no return or re-raise in the
except block, control falls through to lines 82-83, which submit whenever
this invocation owns the transaction. -/
def transaction {α : Type} (func : LbSt → Outcome α) (s : LbSt) : Outcome (Option α) :=
  match get_transaction s with
  | (Except.error e, s1) => Outcome.raised e s1
  | (Except.ok isOpen, s1) =>
    let our_transaction := !isOpen
    let opened : Except PyErr Unit × LbSt :=
      if our_transaction then set_transaction_true s1 else (Except.ok (), s1)
    match opened with
    | (Except.error e, s2) => Outcome.raised e s2
    | (Except.ok _, s2) =>
      match func s2 with
      | Outcome.ok _func_ret s3 => transaction_finish our_transaction s3
      | Outcome.raised _e s3 =>
        let s4 := if our_transaction then (set_transaction_false s3).2 else s3
        transaction_finish our_transaction s4

/-!  Constructor. -/

/-- Embedding of `Lb.__init__` (lb.py lines 92-106): query the remote version
once; when `versioncheck` is on and the version string does not contain
`BIG-IP_v11`, raise `UnsupportedF5Version`; otherwise prime the four
session caches by reading the `active_folder`, `recursive_query`,
`transaction` and `transaction_timeout` properties (any raise from those
getters propagates).  The result carries the state of the remote endpoint on
both paths so the call counters stay observable. -/
def lbInit (versioncheck : Bool) (r : Remote) : Except PyErr LbSt × Remote :=
  let (version, r1) := r.get_version
  if versioncheck && !(strIn "BIG-IP_v11" version) then
    (Except.error PyErr.unsupportedF5Version, r1)
  else
    let s0 : LbSt :=
      { remote := r1, _active_folder := "", _recursive_query := false,
        _transaction := false, _transaction_timeout := 0 }
    let (_, s1) := get_active_folder s0
    match get_recursive_query s1 with
    | (Except.error e, s2) => (Except.error e, s2.remote)
    | (Except.ok _, s2) =>
      match get_transaction s2 with
      | (Except.error e, s3) => (Except.error e, s3.remote)
      | (Except.ok _, s3) =>
        let (_, s4) := get_transaction_timeout s3
        (Except.ok s4, s4.remote)

/-!  Pool-member cache. -/

/-- A pool member as the cache sees it: the node name, port and pool name
that `_pm_cache_put` reads off the entity. -/
structure PoolMember where
  nodeName : String
  port : Nat
  poolName : String
  deriving Repr, DecidableEq

/-- The cache key built at lb.py lines 279 and 284 by percent-s formatting of
node name, port and pool name (lines 279
and 284): plain concatenation with no separator. -/
def pmKey (node_name : String) (port : Nat) (pool_name : String) : String :=
  node_name ++ toString port ++ pool_name

/-- A Python dict as the pool-member cache uses it, as a map from string keys
to stored entities. -/
def PmCache : Type := String → Option PoolMember

/-- The empty pool-member cache. -/
def pmCacheEmpty : PmCache := fun _ => none

/-- Embedding of `_pm_cache_put` (lb.py lines 283-285): store the entity under
the concatenated key, overwriting any entry already at that key. -/
def _pm_cache_put (cache : PmCache) (pm : PoolMember) : PmCache :=
  fun k => if k = pmKey pm.nodeName pm.port pm.poolName then some pm else cache k

/-- Embedding of `_pm_cache_get` (lb.py lines 278-281): look up the
concatenated key, returning Python `None` (here `none`) on a miss. -/
def _pm_cache_get (cache : PmCache) (node_name : String) (port : Nat) (pool_name : String) :
    Option PoolMember :=
  cache (pmKey node_name port pool_name)

/-!  Concrete states used by witnesses and counterexamples. -/

/-- A well-behaved remote endpoint: folder `/Common`, recursion disabled, no
transaction open, compatible version, all call counters zero. -/
def remote0 : Remote :=
  { folder := "/Common", rqState := "STATE_DISABLED", txOpen := false,
    txTimeout := 5, versionString := "BIG-IP_v11.3.0", starts := 0,
    rollbacks := 0, submits := 0, versionGets := 0 }

/-- A session against `remote0` with caches in sync: folder `/Common`,
recursion off, no transaction. -/
def lb0 : LbSt :=
  { remote := remote0, _active_folder := "/Common", _recursive_query := false,
    _transaction := false, _transaction_timeout := 5 }

/-- A body that immediately raises a non-`ServerError` exception. -/
def bodyRaise {α : Type} : LbSt → Outcome α := fun s => Outcome.raised PyErr.otherError s

/-- A body that returns 7 without touching the session. -/
def bodySeven : LbSt → Outcome Nat := fun s => Outcome.ok 7 s

/-- A session at the root folder `/` against a root-folder remote, recursion
off, no transaction. -/
def lbRoot : LbSt :=
  { remote := { remote0 with folder := "/" }, _active_folder := "/",
    _recursive_query := false, _transaction := false, _transaction_timeout := 5 }

/-- The exception an `Outcome` propagated, if any. -/
def Outcome.err {α : Type} : Outcome α → Option PyErr
  | Outcome.ok _ _ => none
  | Outcome.raised e _ => some e

/-- Whether an exception is a `ServerError` (boolean classifier used to state
that non-`ServerError` exceptions always propagate). -/
def PyErr.isServerErrorB : PyErr → Bool
  | PyErr.serverError _ => true
  | _ => false

/-- A pool member on node `n1`, port 23, pool `x`. -/
def pm1 : PoolMember := { nodeName := "n1", port := 23, poolName := "x" }

/-- A distinct pool member on node `n12`, port 3, pool `x`, whose cache key
collides with that of `pm1`. -/
def pm2 : PoolMember := { nodeName := "n12", port := 3, poolName := "x" }

/-!  Helper lemmas. -/

/-- Setting the active folder leaves the folder cache at the written value. -/
@[simp] theorem set_active_folder_fold (s : LbSt) (v : String) :
    (set_active_folder s v)._active_folder = v := rfl

/-- Setting the active folder does not touch the recursion cache. -/
@[simp] theorem set_active_folder_rq (s : LbSt) (v : String) :
    (set_active_folder s v)._recursive_query = s._recursive_query := rfl

/-- Setting the recursion flag leaves the recursion cache at the written
value. -/
@[simp] theorem setRecursiveQueryBool_rq (s : LbSt) (b : Bool) :
    (setRecursiveQueryBool s b)._recursive_query = b := rfl

/-- Setting the recursion flag does not touch the folder cache. -/
@[simp] theorem setRecursiveQueryBool_fold (s : LbSt) (b : Bool) :
    (setRecursiveQueryBool s b)._active_folder = s._active_folder := rfl

/-- The already-open fault message contains the substring the source checks
for. -/
@[simp] theorem strIn_onlyOne_self : strIn onlyOneMsg onlyOneMsg = true := by decide

/-- The nothing-to-roll-back fault message contains the substring the source
checks for. -/
@[simp] theorem strIn_noRollback_self : strIn noRollbackMsg noRollbackMsg = true := by decide

/-- The restore step always brings the folder cache back to the snapshot. -/
theorem restoreSt_fold (s1 : LbSt) (f : String) (b : Bool) :
    (restoreSt s1 f b)._active_folder = f := by
  unfold restoreSt
  by_cases h1 : s1._active_folder = f <;> by_cases h2 : s1._recursive_query = b <;>
    simp [h1, h2]

/-- The restore step always brings the recursion cache back to the snapshot. -/
theorem restoreSt_rq (s1 : LbSt) (f : String) (b : Bool) :
    (restoreSt s1 f b)._recursive_query = b := by
  unfold restoreSt
  by_cases h1 : s1._active_folder = f <;> by_cases h2 : s1._recursive_query = b <;>
    simp [h1, h2]

/-!  Claim theorems. -/

/-- C1 counterexample: starting from folder `/Common` and recursion off, a
recursive-reader operation whose body raises leaves the session at folder
`/` with recursion on — the snapshot is NOT restored before the exception
reaches the caller, because `restore_session_values` has no try/finally. -/
theorem C1_counterexample :
    (recursivereader (bodyRaise (α := Nat)) lb0).okValue = none
  ∧ (recursivereader (bodyRaise (α := Nat)) lb0).err = some PyErr.otherError
  ∧ (recursivereader (bodyRaise (α := Nat)) lb0).st._active_folder = "/"
  ∧ (recursivereader (bodyRaise (α := Nat)) lb0).st._recursive_query = true
  ∧ lb0._active_folder = "/Common"
  ∧ lb0._recursive_query = false :=
  ⟨rfl, rfl, rfl, rfl, rfl, rfl⟩

/-- C1 (amended): the scoped session-state wrapper restores the active folder
and the recursive-query flag to their pre-call snapshot values on the
success path only; when the wrapped body raises, the exception propagates
to the caller with no restoration performed. -/
theorem C1_restore_success_only {α : Type} (body : LbSt → Outcome α) (s : LbSt) :
    (∀ v s1, body s = Outcome.ok v s1 →
       ∃ s2, restore_session_values body s = Outcome.ok v s2
          ∧ s2._active_folder = s._active_folder
          ∧ s2._recursive_query = s._recursive_query)
  ∧ (∀ e s1, body s = Outcome.raised e s1 →
       restore_session_values body s = Outcome.raised e s1) := by
  constructor
  · intro v s1 h
    refine ⟨restoreSt s1 s._active_folder s._recursive_query, ?_, restoreSt_fold ..,
      restoreSt_rq ..⟩
    unfold restore_session_values
    rw [h]
  · intro e s1 h
    unfold restore_session_values
    rw [h]

/-- C1 witness: a body that raises immediately propagates its exception
through the wrapper unchanged. -/
theorem C1_restore_success_only_witness :
    restore_session_values (bodyRaise (α := Nat)) lb0 = Outcome.raised PyErr.otherError lb0 :=
  (C1_restore_success_only (bodyRaise (α := Nat)) lb0).2 PyErr.otherError lb0 rfl

/-- C2: at a fresh session with no open transaction, a transaction-wrapped
body that raises still causes a remote submit to be issued — the except
block of the wrapper rolls back but does not return or re-raise, so
control falls through to the submit at lines 82-83, which then faults
(and the body exception itself is swallowed).  The claim that no submit
happens on the owning raise path is false of the code. -/
theorem C2_submit_after_rollback :
    lb0.remote.txOpen = false
  ∧ lb0.remote.submits = 0
  ∧ (transaction (bodyRaise (α := Nat)) lb0).st.remote.submits = 1
  ∧ (transaction (bodyRaise (α := Nat)) lb0).err =
      some (PyErr.serverError noSubmitMsg)
  ∧ (transaction (bodyRaise (α := Nat)) lb0).st.remote.txOpen = false :=
  ⟨rfl, rfl, rfl, rfl, rfl⟩

/-- C3: the writer decorator only runs its body when the active folder is the
root `/` (forcing it to `/Common` first); when the folder is already
non-root, the body is skipped entirely and the wrapper returns Python
`None` — the source places `return func(...)` inside the `if`, so the
claim that the body runs in both cases is false of the code. -/
theorem C3_body_skipped_when_nonroot :
    writer bodySeven lb0 = Outcome.ok none lb0
  ∧ (writer bodySeven lbRoot).okValue = some (some 7)
  ∧ (writer bodySeven lbRoot).st._active_folder = "/" :=
  ⟨rfl, rfl, rfl⟩

/-- C10: the pool-member cache key is a separator-free concatenation of node
name, port and pool name, so the distinct members `(n1, 23, x)` and
`(n12, 3, x)` share the key `n123x`: storing one makes a lookup of the
other return it, and storing the second overwrites the first. -/
theorem C10_pm_cache_collision :
    pm1 ≠ pm2
  ∧ pmKey pm1.nodeName pm1.port pm1.poolName = pmKey pm2.nodeName pm2.port pm2.poolName
  ∧ _pm_cache_get (_pm_cache_put pmCacheEmpty pm1) "n12" 3 "x" = some pm1
  ∧ _pm_cache_get (_pm_cache_put (_pm_cache_put pmCacheEmpty pm1) pm2) "n1" 23 "x" = some pm2 := by
  refine ⟨by decide, by decide, by decide, by decide⟩

/-- C4: reading the transaction property probes the remote endpoint: it
reports exactly the remote open state; when a transaction was open the
already-open fault is interpreted as `true` with the remote state left
unchanged (no rollback issued); when none was open the probe opens one and
immediately rolls it back, returning `false`; and a start fault whose
message is not the already-open one propagates unchanged. -/
theorem C4_transaction_probe (s : LbSt) (msg : String)
    (hmsg : strIn onlyOneMsg msg = false) :
    ((get_transaction s).1 = Except.ok s.remote.txOpen)
  ∧ ((get_transaction s).2.remote.txOpen = s.remote.txOpen)
  ∧ (s.remote.txOpen = true →
       (get_transaction s).2.remote.rollbacks = s.remote.rollbacks)
  ∧ (s.remote.txOpen = false →
       (get_transaction s).2.remote.starts = s.remote.starts + 1
     ∧ (get_transaction s).2.remote.rollbacks = s.remote.rollbacks + 1)
  ∧ _active_transaction (Except.error (PyErr.serverError msg)) (Except.ok ()) =
      Except.error (PyErr.serverError msg) := by
  cases h : s.remote.txOpen <;>
    refine ⟨?_, ?_, ?_, ?_, ?_⟩ <;>
    simp [get_transaction, Remote.start_transaction, Remote.rollback_transaction,
          _active_transaction, h, hmsg]

/-- C4 witness: at the fresh closed-transaction session the probe reports
`false`, and a start fault with an unrelated message propagates. -/
theorem C4_transaction_probe_witness :
    (get_transaction lb0).1 = Except.ok lb0.remote.txOpen
  ∧ _active_transaction (Except.error (PyErr.serverError "boom")) (Except.ok ()) =
      Except.error (PyErr.serverError "boom") :=
  ⟨(C4_transaction_probe lb0 "boom" (by decide)).1,
   (C4_transaction_probe lb0 "boom" (by decide)).2.2.2.2⟩

/-- C5: the session layer swallows exactly the already-open start fault and
the nothing-to-roll-back rollback fault: for a `ServerError` the outcome
is characterized by whether the message contains the respective substring,
any non-`ServerError` exception propagates unchanged, opening when a
transaction is already open completes without error leaving it open, and
rolling back when none is open completes without error leaving it
closed. -/
theorem C5_two_faults_swallowed (msg : String) (e : PyErr)
    (he : e.isServerErrorB = false) :
    (_ensure_transaction (Except.error (PyErr.serverError msg)) =
      if strIn onlyOneMsg msg then Except.ok () else Except.error (PyErr.serverError msg))
  ∧ (_ensure_no_transaction (Except.error (PyErr.serverError msg)) =
      if strIn noRollbackMsg msg then Except.ok () else Except.error (PyErr.serverError msg))
  ∧ _ensure_transaction (Except.error e) = Except.error e
  ∧ _ensure_no_transaction (Except.error e) = Except.error e
  ∧ (∀ t : LbSt, t.remote.txOpen = true →
       (set_transaction_true t).1 = Except.ok ()
     ∧ (set_transaction_true t).2.remote.txOpen = true)
  ∧ (∀ t : LbSt, t.remote.txOpen = false →
       (set_transaction_false t).1 = Except.ok ()
     ∧ (set_transaction_false t).2.remote.txOpen = false) := by
  refine ⟨rfl, rfl, ?_, ?_, ?_, ?_⟩
  · cases e <;> first | rfl | simp [PyErr.isServerErrorB] at he
  · cases e <;> first | rfl | simp [PyErr.isServerErrorB] at he
  · intro t ht
    constructor <;>
      simp [set_transaction_true, _ensure_transaction, Remote.start_transaction, ht]
  · intro t ht
    constructor <;>
      simp [set_transaction_false, _ensure_no_transaction, Remote.rollback_transaction, ht]

/-- C5 witness: the two documented faults are swallowed, an unrelated
exception propagates, and a second open after an open leaves exactly one
transaction open with no error. -/
theorem C5_two_faults_swallowed_witness :
    _ensure_transaction (Except.error (PyErr.serverError onlyOneMsg)) = Except.ok ()
  ∧ _ensure_no_transaction (Except.error (PyErr.serverError noRollbackMsg)) = Except.ok ()
  ∧ _ensure_transaction (Except.error PyErr.otherError) = Except.error PyErr.otherError
  ∧ (set_transaction_true (set_transaction_true lb0).2).1 = Except.ok ()
  ∧ (set_transaction_true (set_transaction_true lb0).2).2.remote.txOpen = true := by
  have h := C5_two_faults_swallowed onlyOneMsg PyErr.otherError (by decide)
  have h2 := C5_two_faults_swallowed noRollbackMsg PyErr.otherError (by decide)
  have h5 := h.2.2.2.2.1 (set_transaction_true lb0).2 (by decide)
  exact ⟨by rw [h.1]; simp, by rw [h2.2.1]; simp, h.2.2.1, h5.1, h5.2⟩

/-- C6: the recursive-query getter maps the remote state `STATE_ENABLED` to
`true`, `STATE_DISABLED` to `false`, and raises (the `ProtocolError`
of the spec, the raise at lb.py line 146) on every other state
string. -/
theorem C6_rq_getter_mapping (s : LbSt) :
    (get_recursive_query s).1 =
      if s.remote.rqState = "STATE_ENABLED" then Except.ok true
      else if s.remote.rqState = "STATE_DISABLED" then Except.ok false
      else Except.error PyErr.runtimeError := by
  by_cases h1 : s.remote.rqState = "STATE_ENABLED" <;>
    by_cases h2 : s.remote.rqState = "STATE_DISABLED" <;>
    simp [get_recursive_query, Remote.get_recursive_query_state, h1, h2]

/-- C7: setting `recursive_query` to `True` and reading it back yields `True`,
likewise for `False`; any value equal to neither raises `ValueError` (the
`InvalidArgument` of the spec) with the session — remote endpoint included —
left completely untouched. -/
theorem C7_rq_setter_roundtrip (s : LbSt) (rep : String) :
    (get_recursive_query (set_recursive_query s PyVal.pyTrue).2).1 = Except.ok true
  ∧ (get_recursive_query (set_recursive_query s PyVal.pyFalse).2).1 = Except.ok false
  ∧ set_recursive_query s (PyVal.other rep) = (Except.error PyErr.valueError, s) := by
  refine ⟨?_, ?_, rfl⟩ <;>
    simp [get_recursive_query, set_recursive_query, setRecursiveQueryBool,
          Remote.get_recursive_query_state, Remote.set_recursive_query_state]

/-- C8: construction queries the remote version exactly once; with version
checking enabled and a version string not containing `BIG-IP_v11` it
raises `UnsupportedF5Version`; with version checking disabled it succeeds
for every version string (given a well-formed remote recursive-query
state). -/
theorem C8_init_version_check (vc : Bool) (r : Remote)
    (hrq : r.rqState = "STATE_ENABLED" ∨ r.rqState = "STATE_DISABLED") :
    ((lbInit vc r).2.versionGets = r.versionGets + 1)
  ∧ (vc = true → strIn "BIG-IP_v11" r.versionString = false →
      (lbInit vc r).1 = Except.error PyErr.unsupportedF5Version)
  ∧ (vc = false → (lbInit vc r).1.isOk = true) := by
  cases hv : vc <;> rcases hrq with hrq | hrq <;>
    cases hs : strIn "BIG-IP_v11" r.versionString <;>
    cases ht : r.txOpen <;>
    refine ⟨?_, ?_, ?_⟩ <;>
    simp [lbInit, Remote.get_version, get_active_folder, Remote.get_active_folder,
          get_recursive_query, Remote.get_recursive_query_state,
          get_transaction, Remote.start_transaction, Remote.rollback_transaction,
          get_transaction_timeout, Remote.get_transaction_timeout,
          Except.isOk, Except.toBool, hv, hrq, hs, ht]

/-- C8 witness: an incompatible version string raises with the check on, and
with the check off construction succeeds against the same endpoint
model. -/
theorem C8_init_version_check_witness :
    (lbInit true { remote0 with versionString := "BIG-IP_v10" }).1 =
      Except.error PyErr.unsupportedF5Version
  ∧ (lbInit false { remote0 with versionString := "BIG-IP_v10" }).1.isOk = true :=
  ⟨(C8_init_version_check true { remote0 with versionString := "BIG-IP_v10" }
      (Or.inr rfl)).2.1 rfl (by decide),
   (C8_init_version_check false { remote0 with versionString := "BIG-IP_v10" }
      (Or.inr rfl)).2.2 rfl⟩

/-- C9: the transaction wrapper never returns the value of the wrapped body: every
normal return of the wrapper carries Python `None` (modelled as `none`),
whatever the body returned and on raise paths alike. -/
theorem C9_wrapper_returns_none {α : Type} (func : LbSt → Outcome α) (s : LbSt) :
    (transaction func s).okValue.getD none = none := by
  unfold transaction
  rcases hg : get_transaction s with ⟨res, s1⟩
  cases res with
  | error e => simp [Outcome.okValue]
  | ok isOpen =>
    cases isOpen with
    | true =>
      simp only [Bool.not_true]
      cases hb : func s1 with
      | ok v s3 => simp [hb, transaction_finish, Outcome.okValue]
      | raised e s3 => simp [hb, transaction_finish, Outcome.okValue]
    | false =>
      simp only [Bool.not_false]
      rcases hset : set_transaction_true s1 with ⟨r2, s2⟩
      cases r2 with
      | error e => simp [Outcome.okValue]
      | ok u =>
        cases hb : func s2 with
        | ok v s3 =>
          rcases hsub : submit_tx s3 with ⟨r3, s5⟩
          cases r3 <;> simp [hb, transaction_finish, hsub, Outcome.okValue]
        | raised e s3 =>
          rcases hsub : submit_tx (set_transaction_false s3).2 with ⟨r3, s5⟩
          cases r3 <;> simp [hb, transaction_finish, hsub, Outcome.okValue]
